import Mathlib

/-!
Verification of the upload-validation and execution modules of the
api-stress-test-platform orchestrator (src/orchestrator/upload.py and
src/orchestrator/execution.py), embedded shallowly: JSON documents become an
inductive type, the Python string operations used by the code are modelled on
lists of characters, and each validator becomes a Lean function mirroring its
source line by line.
-/

/-! ## Python string primitives -/

/-- Characters stripped by the Python str.strip method with no argument. -/
def pySpaceChar (c : Char) : Bool :=
  c = ' ' || c = '\t' || c = '\n' || c = '\r' || c = '\x0b' || c = '\x0c'

/-- Python str.strip with no argument: drop whitespace from both ends. -/
def pyStrip (s : String) : String :=
  ⟨((s.data.dropWhile pySpaceChar).reverse.dropWhile pySpaceChar).reverse⟩

/-- Split a character list on a separator character, Python str.split style:
the empty list yields one empty group. -/
def splitOnChar (sep : Char) : List Char → List (List Char)
  | [] => [[]]
  | c :: rest =>
    let r := splitOnChar sep rest
    if c = sep then [] :: r
    else
      match r with
      | [] => [[c]]
      | g :: gs => (c :: g) :: gs

/-- One step of Python str.replace: when the (nonempty) pattern is a prefix,
emit the replacement and continue after the pattern, otherwise keep one
character. Fuel bounds the recursion; any fuel at least the length of the
text gives the exact Python semantics (leftmost, non-overlapping). -/
def pyReplaceFuel (pat repl : List Char) : Nat → List Char → List Char
  | _, [] => []
  | 0, s => s
  | fuel + 1, c :: rest =>
    if pat.isPrefixOf (c :: rest) && !pat.isEmpty then
      repl ++ pyReplaceFuel pat repl fuel ((c :: rest).drop pat.length)
    else
      c :: pyReplaceFuel pat repl fuel rest

/-- Python str.replace on lists of characters. -/
def pyReplaceL (pat repl s : List Char) : List Char :=
  pyReplaceFuel pat repl s.length s

/-- Python s.replace(pat, repl): replace every non-overlapping occurrence,
scanning left to right. -/
def pyReplace (s pat repl : String) : String :=
  ⟨pyReplaceL pat.data repl.data s.data⟩

/-- Python s.startswith(pre). -/
def pyStartsWith (s pre : String) : Bool :=
  pre.data.isPrefixOf s.data

/-- Join a list of strings with a separator. -/
def joinSep (sep : String) : List String → String
  | [] => ""
  | [x] => x
  | x :: y :: xs => x ++ sep ++ joinSep sep (y :: xs)

/-! ## The template scanner

The source (upload.py, extract_variables_from_text) runs
re.findall with the pattern of two opening braces, a captured nonempty run
of characters other than a closing brace, and two closing braces. Because
the captured class excludes the closing brace, a candidate match at a given
position succeeds exactly when two opening braces are followed by a nonempty
run of non-closing-brace characters and then immediately by two closing
braces; on success scanning resumes after the match, on failure it advances
one character. Fuel at least the length of the text gives the exact
semantics since every step consumes at least one character. -/

/-- re.findall for the placeholder pattern, on character lists with fuel. -/
def findAllFuel : Nat → List Char → List (List Char)
  | _, [] => []
  | 0, _ => []
  | fuel + 1, '\x7b' :: '\x7b' :: rest2 =>
    let b := rest2.takeWhile (fun ch => ch ≠ '\x7d')
    let after := rest2.dropWhile (fun ch => ch ≠ '\x7d')
    if !b.isEmpty && ['\x7d', '\x7d'].isPrefixOf after then
      b :: findAllFuel fuel (after.drop 2)
    else
      findAllFuel fuel ('\x7b' :: rest2)
  | fuel + 1, _ :: rest => findAllFuel fuel rest

/-- upload.py extract_variables_from_text: extract every placeholder body
from a text. -/
def extract_variables_from_text (text : String) : List String :=
  (findAllFuel text.data.length text.data).map (fun l => ⟨l⟩)

/-! ## JSON values and json.dumps -/

/-- A decoded JSON document. Numbers are modelled as integers (every number
appearing in the artifacts under study is integral); bool is kept separate
because Python bool is a subclass of int, which the validators observe. -/
inductive Json where
  | str (s : String)
  | num (n : Int)
  | bool (b : Bool)
  | null
  | arr (items : List Json)
  | obj (fields : List (String × Json))

/-- Lowercase hexadecimal digit. -/
def hexDigitChar (n : Nat) : Char :=
  if n < 10 then Char.ofNat ('0'.toNat + n) else Char.ofNat ('a'.toNat + (n - 10))

/-- Escaping of one character inside a JSON string literal as json.dumps
does with its defaults (ensure_ascii): named escapes for quote, backslash
and common control characters, u-escapes for the rest of the controls and
for non-ASCII code points of the basic plane. -/
def escapeJsonChar (c : Char) : List Char :=
  if c = '"' then ['\\', '"']
  else if c = '\\' then ['\\', '\\']
  else if c = '\n' then ['\\', 'n']
  else if c = '\t' then ['\\', 't']
  else if c = '\r' then ['\\', 'r']
  else if c = '\x08' then ['\\', 'b']
  else if c = '\x0c' then ['\\', 'f']
  else if c.toNat < 0x20 || c.toNat > 0x7e then
    ['\\', 'u', hexDigitChar (c.toNat / 4096 % 16), hexDigitChar (c.toNat / 256 % 16),
      hexDigitChar (c.toNat / 16 % 16), hexDigitChar (c.toNat % 16)]
  else [c]

/-- JSON string-literal escaping applied to a whole string. -/
def escapeJsonString (s : String) : String :=
  ⟨(s.data.map escapeJsonChar).flatten⟩

mutual

/-- json.dumps with the default separators. -/
def dumps : Json → String
  | .str s => "\"" ++ escapeJsonString s ++ "\""
  | .num n => toString n
  | .bool b => if b then "true" else "false"
  | .null => "null"
  | .arr items => "[" ++ dumpsArr items ++ "]"
  | .obj fields => "\x7b" ++ dumpsObj fields ++ "\x7d"

/-- json.dumps of the elements of an array, comma separated. -/
def dumpsArr : List Json → String
  | [] => ""
  | [x] => dumps x
  | x :: y :: xs => dumps x ++ ", " ++ dumpsArr (y :: xs)

/-- json.dumps of the members of an object, comma separated. -/
def dumpsObj : List (String × Json) → String
  | [] => ""
  | [(k, v)] => "\"" ++ escapeJsonString k ++ "\": " ++ dumps v
  | (k, v) :: y :: xs =>
    "\"" ++ escapeJsonString k ++ "\": " ++ dumps v ++ ", " ++ dumpsObj (y :: xs)

end

mutual

/-- Python repr of a decoded JSON value (as rendered inside f-strings for
containers); string escaping inside repr is not modelled. -/
def pyRepr : Json → String
  | .str s => "\x27" ++ s ++ "\x27"
  | .num n => toString n
  | .bool b => if b then "True" else "False"
  | .null => "None"
  | .arr items => "[" ++ pyReprArr items ++ "]"
  | .obj fields => "\x7b" ++ pyReprObj fields ++ "\x7d"

/-- Python repr of list elements, comma separated. -/
def pyReprArr : List Json → String
  | [] => ""
  | [x] => pyRepr x
  | x :: y :: xs => pyRepr x ++ ", " ++ pyReprArr (y :: xs)

/-- Python repr of dict items, comma separated. -/
def pyReprObj : List (String × Json) → String
  | [] => ""
  | [(k, v)] => "\x27" ++ k ++ "\x27: " ++ pyRepr v
  | (k, v) :: y :: xs => "\x27" ++ k ++ "\x27: " ++ pyRepr v ++ ", " ++ pyReprObj (y :: xs)

end

/-- Python str of a decoded JSON value, as an f-string renders it. -/
def pyStr : Json → String
  | .str s => s
  | .num n => toString n
  | .bool b => if b then "True" else "False"
  | .null => "None"
  | .arr items => pyRepr (.arr items)
  | .obj fields => pyRepr (.obj fields)

/-- Python repr of a list of strings, used when an f-string renders a list
of variable names. -/
def pyStrListRepr (l : List String) : String :=
  "[" ++ joinSep ", " (l.map (fun s => "\x27" ++ s ++ "\x27")) ++ "]"


/-! ## Variable extraction and classification (upload.py) -/

/-- The three placeholder categories built by
extract_variables_from_scenario. -/
structure VariableCatalog where
  user : List String
  env : List String
  extract : List String
deriving DecidableEq

/-- The loop body of extract_variables_from_scenario: classify one token
into the catalog, appending when not already present. Note that the source
uses str.replace, which removes every occurrence of the pattern, not only
the leading one. -/
def classifyVar (vars : VariableCatalog) (var : String) : VariableCatalog :=
  if pyStartsWith var "user." then
    if pyReplace var "user." "" ∉ vars.user then
      { vars with user := vars.user ++ [pyReplace var "user." ""] }
    else vars
  else if pyStartsWith var "env." then
    if pyReplace var "env." "" ∉ vars.env then
      { vars with env := vars.env ++ [pyReplace var "env." ""] }
    else vars
  else
    if var ∉ vars.extract then { vars with extract := vars.extract ++ [var] } else vars

/-- The classification loop of extract_variables_from_scenario over a token
list, starting from the empty catalog. -/
def classify_variables (all_vars : List String) : VariableCatalog :=
  all_vars.foldl classifyVar ⟨[], [], []⟩

/-- upload.py extract_variables_from_scenario: serialize the scenario with
json.dumps, scan it, and classify every token. -/
def extract_variables_from_scenario (scenario_data : Json) : VariableCatalog :=
  classify_variables (extract_variables_from_text (dumps scenario_data))

/-! ## Structural validators (upload.py) -/

/-- Key lookup in the field list of a JSON object (Python dict indexing;
parsed documents have unique keys, the first binding is taken). -/
def lookupFields : List (String × Json) → String → Option Json
  | [], _ => none
  | (k, v) :: rest, key => if k = key then some v else lookupFields rest key

/-- Python j.get(key) for a decoded document. -/
def jsonLookup (j : Json) (key : String) : Option Json :=
  match j with
  | .obj fields => lookupFields fields key
  | _ => none

/-- Python equality between a decoded JSON value and a string literal: only
a decoded string can compare equal. -/
def jsonEqStr (j : Json) (s : String) : Bool :=
  match j with
  | .str t => t = s
  | _ => false

/-- Python membership of a decoded JSON value in a list of string literals. -/
def jsonInStrList (j : Json) (l : List String) : Bool :=
  match j with
  | .str t => t ∈ l
  | _ => false

/-- Python test j.get(key) == s on a decoded document. -/
def jsonGetEqStr (j : Json) (key s : String) : Bool :=
  match jsonLookup j key with
  | some v => jsonEqStr v s
  | none => false

/-- Python isinstance(v, int) on a decoded JSON value: true for numbers and
for booleans, since Python bool is a subclass of int. -/
def isIntLike : Json → Bool
  | .num _ => true
  | .bool _ => true
  | _ => false

/-- The integer value a decoded number or boolean compares with (True is 1,
False is 0); unused junk value for the other shapes, which the source never
compares thanks to short-circuiting. -/
def jsonIntVal : Json → Int
  | .num n => n
  | .bool b => if b then 1 else 0
  | _ => 0

/-- The display name used in step error messages: step.get with the
placeholder default. -/
def stepNameDisp (fields : List (String × Json)) : String :=
  match lookupFields fields "name" with
  | some v => pyStr v
  | none => "sans nom"

/-- Validation of one step of the scenario (the loop body of
validate_scenario_structure); i is the zero-based index. -/
def validateStep (i : Nat) (step : Json) : List String :=
  match step with
  | .obj fields =>
    let fieldErrs :=
      (["name", "method", "url"].filter (fun f => (lookupFields fields f).isNone)).map
        (fun f => "L\x27étape " ++ toString (i + 1) ++ " \x27" ++ stepNameDisp fields ++
          "\x27 manque le champ \x27" ++ f ++ "\x27")
    let methodErr :=
      match lookupFields fields "method" with
      | some m =>
        if jsonInStrList m ["GET", "POST", "PUT", "DELETE", "PATCH"] then []
        else ["L\x27étape " ++ toString (i + 1) ++ " a une méthode HTTP invalide: " ++ pyStr m]
      | none => []
    fieldErrs ++ methodErr
  | _ => ["L\x27étape " ++ toString (i + 1) ++ " doit être un objet"]

/-- The per-step loop of validate_scenario_structure, with running index. -/
def validateStepsFrom : Nat → List Json → List String
  | _, [] => []
  | i, s :: rest => validateStep i s ++ validateStepsFrom (i + 1) rest

/-- upload.py validate_scenario_structure. -/
def validate_scenario_structure (scenario_data : Json) : List String :=
  match scenario_data with
  | .obj fields =>
    let nameErrs :=
      if (lookupFields fields "name").isNone then ["Le scénario doit avoir un \x27name\x27"]
      else []
    match lookupFields fields "steps" with
    | none => nameErrs ++ ["Le scénario doit avoir des \x27steps\x27"]
    | some steps =>
      match steps with
      | .arr stepList =>
        let emptyErr :=
          if stepList.length = 0 then ["Le scénario doit avoir au moins une étape"] else []
        nameErrs ++ emptyErr ++ validateStepsFrom 0 stepList
      | _ => nameErrs ++ ["Les \x27steps\x27 doivent être une liste"]
  | _ => ["Le scénario doit être un objet JSON"]

/-- upload.py validate_variables_structure. -/
def validate_variables_structure (variables_data : Json) : List String :=
  match variables_data with
  | .obj fields =>
    let modeErrs :=
      match lookupFields fields "mode" with
      | none => ["Le fichier variables doit spécifier un \x27mode\x27"]
      | some m =>
        if jsonInStrList m ["users", "requests"] then []
        else ["Le mode doit être \x27users\x27 ou \x27requests\x27"]
    let usersErrs :=
      if jsonGetEqStr (.obj fields) "mode" "users" then
        match lookupFields fields "virtualUsers" with
        | none => ["Le mode \x27users\x27 nécessite le champ \x27virtualUsers\x27"]
        | some v =>
          if !isIntLike v || decide (jsonIntVal v ≤ 0) then
            ["\x27virtualUsers\x27 doit être un entier positif"]
          else []
      else []
    let requestsErrs :=
      if jsonGetEqStr (.obj fields) "mode" "requests" then
        match lookupFields fields "totalRequests" with
        | none => ["Le mode \x27requests\x27 nécessite le champ \x27totalRequests\x27"]
        | some v =>
          if !isIntLike v || decide (jsonIntVal v ≤ 0) then
            ["\x27totalRequests\x27 doit être un entier positif"]
          else []
      else []
    modeErrs ++ usersErrs ++ requestsErrs
  | _ => ["Le fichier variables doit être un objet JSON"]

/-! ## Dataset validation (upload.py) -/

/-- The rows the Python csv.reader yields for a text without quoting or
carriage returns: lines split on the newline character (a trailing newline
produces no extra row, a blank line yields the empty row), cells split on
commas. -/
def csvRows (content : String) : List (List String) :=
  let ls := splitOnChar '\n' content.data
  let ls :=
    match ls.reverse with
    | [] :: rest => rest.reverse
    | _ => ls
  ls.map (fun l => if l.isEmpty then [] else (splitOnChar ',' l).map (fun cs => ⟨cs⟩))

/-- upload.py validate_csv_structure: returns the error list and the cleaned
column list. -/
def validate_csv_structure (csv_content : String) : List String × List String :=
  match csvRows csv_content with
  | [] => (["Le fichier CSV est vide ou n\x27a pas d\x27en-têtes"], [])
  | headers :: dataRows =>
    if headers.isEmpty then (["Le fichier CSV est vide ou n\x27a pas d\x27en-têtes"], [])
    else
      let columns := (headers.map pyStrip).filter (fun col => col ≠ "")
      if columns.length = 0 then (["Le fichier CSV n\x27a pas de colonnes valides"], columns)
      else
        let row_count :=
          (dataRows.filter (fun row => row.any (fun cell => pyStrip cell ≠ ""))).length
        if row_count = 0 then
          (["Le fichier CSV n\x27a pas de données (seulement des en-têtes)"], columns)
        else ([], columns)

/-! ## Cross-file consistency (upload.py) -/

/-- Python test env_var in variables_data.get("environment", ...): key
membership in the environment mapping (a non-mapping environment value has
no keys in the documents under study). -/
def envHasKey (variables_data : Json) (k : String) : Bool :=
  match jsonLookup variables_data "environment" with
  | some (.obj fs) => (lookupFields fs k).isSome
  | _ => false

/-- upload.py validate_cross_file_consistency. -/
def validate_cross_file_consistency (scenario_vars : VariableCatalog)
    (variables_data : Json) (csv_columns : List String) : List String :=
  let userErrs :=
    (scenario_vars.user.filter (fun u => u ∉ csv_columns)).map
      (fun u => "Variable \x27\x7b\x7buser." ++ u ++
        "\x7d\x7d\x27 utilisée dans le scénario mais colonne \x27" ++ u ++
        "\x27 manquante dans users.csv")
  let envErrs :=
    (scenario_vars.env.filter (fun e => !envHasKey variables_data e)).map
      (fun e => "Variable \x27\x7b\x7benv." ++ e ++
        "\x7d\x7d\x27 utilisée dans le scénario mais \x27" ++ e ++
        "\x27 manquant dans variables.json > environment")
  let modeErr :=
    if jsonGetEqStr variables_data "mode" "users" && csv_columns.isEmpty then
      ["Mode \x27users\x27 spécifié mais fichier users.csv manquant ou vide"]
    else []
  userErrs ++ envErrs ++ modeErr

/-! ## The validation report (upload.py validate_files) -/

/-- The analysis section of a report (populated once both documents
decoded); files_saved records whether the artifacts were persisted, with
the store write modelled as succeeding. -/
structure ValidationAnalysis where
  variables_found : VariableCatalog
  csv_columns : List String
  files_saved : Bool
deriving DecidableEq

/-- The ValidationResult model of upload.py; analysis none models the empty
dict of the parse-failure reports. -/
structure ValidationResult where
  status : String
  message : String
  errors : List String := []
  warnings : List String := []
  analysis : Option ValidationAnalysis := none

/-- The minimal report returned when a JSON document fails to decode. -/
def parseErrorReport (e : String) : ValidationResult :=
  { status := "error"
    message := "Erreur de parsing des fichiers JSON"
    errors := ["Erreur JSON: " ++ e] }

/-- The csv error list of a submission (empty when no dataset part). -/
def csvErrorsOf (users : Option String) : List String :=
  match users with
  | some content => (validate_csv_structure content).1
  | none => []

/-- The csv column list of a submission (empty when no dataset part). -/
def csvColumnsOf (users : Option String) : List String :=
  match users with
  | some content => (validate_csv_structure content).2
  | none => []

/-- upload.py validate_files, after multipart reading: the two JSON parts
arrive as decode results (error carries the decoder message) and the
optional dataset as decoded text. -/
def validate_files (scenario_parse variables_parse : Except String Json)
    (users : Option String) : ValidationResult :=
  match scenario_parse with
  | .error e => parseErrorReport e
  | .ok scenario_data =>
    match variables_parse with
    | .error e => parseErrorReport e
    | .ok variables_data =>
      let csv_errors := csvErrorsOf users
      let csv_columns := csvColumnsOf users
      let scenario_errors := validate_scenario_structure scenario_data
      let variables_errors := validate_variables_structure variables_data
      let scenario_vars := extract_variables_from_scenario scenario_data
      let consistency_errors :=
        if scenario_errors = [] ∧ variables_errors = [] then
          validate_cross_file_consistency scenario_vars variables_data csv_columns
        else []
      let errors := csv_errors ++ scenario_errors ++ variables_errors ++ consistency_errors
      let warnings :=
        (if users = none ∧ scenario_vars.user ≠ [] then
          ["Fichier users.csv non fourni mais variables utilisateur détectées: " ++
            pyStrListRepr scenario_vars.user]
        else []) ++
        (if scenario_vars.user = [] ∧ users.isSome then
          ["Fichier users.csv fourni mais aucune variable utilisateur détectée dans le scénario"]
        else [])
      let analysis : ValidationAnalysis := ⟨scenario_vars, csv_columns, errors.isEmpty⟩
      if errors.isEmpty then
        { status := "success"
          message := "Tous les fichiers sont valides et cohérents"
          errors := []
          warnings := warnings
          analysis := some analysis }
      else
        { status := "error"
          message := "Validation échouée: " ++ toString errors.length ++ " erreur(s) détectée(s)"
          errors := errors
          warnings := warnings
          analysis := some analysis }

/-! ## The execution endpoint (execution.py) -/

/-- The ExecutionResponse model of execution.py. -/
structure ExecutionResponse where
  status : String
  test_id : String
  message : String
  summary : Option Json := none
  report_path : Option String := none
  error : Option String := none
  duration : Option String := none

/-- The fields of the decoded body of a 200 worker reply, as read by the
result.get calls of execute_test. -/
structure WorkerResult where
  status : Option String := none
  message : Option String := none
  summary : Option Json := none
  report_path : Option String := none
  error : Option String := none

/-- The outcome of the requests.post call to the worker: a reply with a
status code, or one of the exceptions the handlers distinguish. -/
inductive WorkerOutcome where
  | reply200 (result : WorkerResult)
  | replyOther (status_code : Nat) (text : String)
  | timeoutExc
  | connectionExc
  | otherExc (msg : String)

/-- The environment one call of execute_test runs in: which stored files
exist, what loading them yields (none when open or json.load raises), the
stored dataset text, the wall clock second, and the worker outcome. -/
structure ExecEnv where
  scenario_exists : Bool
  variables_exists : Bool
  scenario_load : Option Json
  variables_load : Option Json
  users_exists : Bool
  users_content : String
  timestamp : Nat
  worker : WorkerOutcome

/-- A Python runtime error escaping the endpoint instead of a response. -/
inductive PyRuntimeError where
  | unboundLocal (name : String)
deriving DecidableEq

/-- execution.py parse_csv_to_dict: csv.DictReader rows as dictionaries with
keys and values stripped; blank rows are skipped by DictReader. Rows of a
length differing from the header (which DictReader pads or collects) are
outside the model. -/
def parse_csv_to_dict (csv_content : String) : List (List (String × String)) :=
  match csvRows csv_content with
  | [] => []
  | headers :: rows =>
    (rows.filter (fun r => !r.isEmpty)).map
      (fun r => (headers.zip r).map (fun kv => (pyStrip kv.1, pyStrip kv.2)))

/-- The test_config dictionary assembled by execute_test before calling the
worker. -/
structure TestConfig where
  mode : Json
  virtualUsers : Json
  totalRequests : Json
  duration : Json
  warmup : Json
  environment : Json
  scenario : Json
  usersData : List (List (String × String))

/-- The defaults execute_test applies through variables_data.get. -/
def buildTestConfig (variables_data scenario_data : Json)
    (users_data : List (List (String × String))) : TestConfig :=
  { mode := (jsonLookup variables_data "mode").getD (.str "users")
    virtualUsers := (jsonLookup variables_data "virtualUsers").getD (.num 1)
    totalRequests := (jsonLookup variables_data "totalRequests").getD (.num 100)
    duration := (jsonLookup variables_data "duration").getD (.str "2m")
    warmup := (jsonLookup variables_data "warmup").getD (.str "30s")
    environment := (jsonLookup variables_data "environment").getD (.obj [])
    scenario := scenario_data
    usersData := users_data }

/-- The duration field of a success response:
result.get("summary").get("duration") guarded by the truthiness of the
summary (an absent, empty or non-mapping summary gives no duration). -/
def durationOf : Option Json → Option String
  | some (.obj fields) =>
    if fields.isEmpty then none
    else
      match lookupFields fields "duration" with
      | some (.str s) => some s
      | _ => none
  | _ => none

/-- execution.py execute_test. The local test_id is assigned only after both
stored documents load; every except handler reads it, so an exception raised
before the assignment makes the handler itself raise UnboundLocalError and
no response is produced — modelled by the error case. -/
def execute_test (env : ExecEnv) : Except PyRuntimeError ExecutionResponse :=
  if !(env.scenario_exists && env.variables_exists) then
    .ok { status := "failed"
          test_id := ""
          message := "Fichiers de configuration manquants"
          error := some "Veuillez d\x27abord uploader et valider scenario.json et variables.json" }
  else
    match env.scenario_load with
    | none => .error (.unboundLocal "test_id")
    | some scenario_data =>
      match env.variables_load with
      | none => .error (.unboundLocal "test_id")
      | some variables_data =>
        let users_data :=
          if env.users_exists then parse_csv_to_dict env.users_content else []
        let test_id := "test_" ++ toString env.timestamp
        let _config := buildTestConfig variables_data scenario_data users_data
        match env.worker with
        | .reply200 result =>
          .ok { status := result.status.getD "completed"
                test_id := test_id
                message := result.message.getD "Test exécuté avec succès"
                summary := result.summary
                report_path := result.report_path
                error := result.error
                duration := durationOf result.summary }
        | .replyOther code text =>
          .ok { status := "failed"
                test_id := test_id
                message := "Erreur de communication avec le worker"
                error := some ("HTTP " ++ toString code ++ ": " ++ text) }
        | .timeoutExc =>
          .ok { status := "timeout"
                test_id := test_id
                message := "Timeout lors de l\x27exécution du test"
                error := some "Le test a pris plus de 5 minutes à s\x27exécuter" }
        | .connectionExc =>
          .ok { status := "failed"
                test_id := test_id
                message := "Impossible de contacter le worker"
                error := some "Vérifiez que le service worker est démarré" }
        | .otherExc msg =>
          .ok { status := "failed"
                test_id := test_id
                message := "Erreur interne lors de l\x27exécution"
                error := some msg }

def c1_scenario : Json :=
  .obj [("name", .str "s"),
    ("steps", .arr [.obj [("name", .str "step1"), ("method", .str "GET"),
      ("url", .str "/x?id=\x7b\x7buser.id\x7d\x7d")]])]

def c1_variables : Json :=
  .obj [("mode", .str "users"), ("virtualUsers", .num 5)]

def c1_dataset : String := "id,name\n1,alice"

/-- C1: for the submission with the scenario of one GET step whose url holds
the user.id placeholder, variables with mode users and virtualUsers 5, and a
dataset with header id,name and one non-empty data row, the validation
report has status success, an empty error list, and the user category of
the variables found in the analysis is exactly the sequence with the single
element id. -/
theorem c1_end_to_end_success :
    (validate_files (.ok c1_scenario) (.ok c1_variables) (some c1_dataset)).status = "success" ∧
    (validate_files (.ok c1_scenario) (.ok c1_variables) (some c1_dataset)).errors = [] ∧
    (validate_files (.ok c1_scenario) (.ok c1_variables) (some c1_dataset)).analysis.map
      (fun a => a.variables_found.user) = some ["id"] := by
  refine ⟨by decide, by decide, by decide⟩

/-! ## Lemmas about the Python string primitives -/

/-- When the pattern occurs nowhere in the text, str.replace returns the
text unchanged. -/
theorem pyReplaceFuel_pattern_absent (pat repl : List Char) :
    ∀ (fuel : Nat) (s : List Char), s.length ≤ fuel → ¬ pat <:+: s →
      pyReplaceFuel pat repl fuel s = s := by
  intro fuel
  induction fuel with
  | zero =>
    intro s hs _
    have : s = [] := List.eq_nil_of_length_eq_zero (Nat.le_zero.mp hs)
    subst this
    rfl
  | succ n ih =>
    intro s hs hinf
    cases s with
    | nil => rfl
    | cons c rest =>
      have hpre : pat.isPrefixOf (c :: rest) = false := by
        cases hp : pat.isPrefixOf (c :: rest)
        · rfl
        · exact absurd ( List.IsPrefix.isInfix ( List.isPrefixOf_iff_prefix.mp hp)) hinf
      have hrest : ¬ pat <:+: rest := fun h => hinf ( List.infix_cons h)
      simp only [pyReplaceFuel, hpre, Bool.false_and, Bool.false_eq_true, if_false]
      exact congrArg (c :: ·) (ih rest (Nat.le_of_succ_le_succ hs) hrest)

/-- Unfolding of one successful step of str.replace: the pattern is a
nonempty prefix, so the replacement is emitted and scanning continues after
the pattern. -/
theorem pyReplaceFuel_cons_pos (pat repl : List Char) (fuel : Nat) (c : Char)
    (rest : List Char) (h : pat.isPrefixOf (c :: rest) = true)
    (hne : pat.isEmpty = false) :
    pyReplaceFuel pat repl (fuel + 1) (c :: rest) =
      repl ++ pyReplaceFuel pat repl fuel ((c :: rest).drop pat.length) := by
  simp [pyReplaceFuel, h, hne]

/-- str.replace on a text that starts with the (nonempty) pattern and
continues with a text free of the pattern: the pattern is replaced once. -/
theorem pyReplaceL_append_pattern_absent (pat repl X : List Char) (hne : pat ≠ [])
    (hX : ¬ pat <:+: X) : pyReplaceL pat repl (pat ++ X) = repl ++ X := by
  cases pat with
  | nil => exact absurd rfl hne
  | cons p ps =>
    have hpre : (p :: ps).isPrefixOf (p :: (ps ++ X)) = true := by
      rw [show p :: (ps ++ X) = (p :: ps) ++ X from rfl]
      exact List.isPrefixOf_iff_prefix.mpr (List.prefix_append _ _)
    have hdrop : ((p :: (ps ++ X)).drop (p :: ps).length) = X := by
      rw [show p :: (ps ++ X) = (p :: ps) ++ X from rfl]
      exact List.drop_left _ _
    have hfuel : X.length ≤ (ps ++ X).length := by
      simp [List.length_append]
    show pyReplaceFuel (p :: ps) repl ((p :: ps) ++ X).length ((p :: ps) ++ X) = repl ++ X
    rw [show (p :: ps) ++ X = p :: (ps ++ X) from rfl,
      show (p :: (ps ++ X)).length = (ps ++ X).length + 1 from rfl,
      pyReplaceFuel_cons_pos _ _ _ _ _ hpre rfl, hdrop,
      pyReplaceFuel_pattern_absent (p :: ps) repl _ X hfuel hX]

/-- String-level corollary: replacing a nonempty pattern by the empty string
in a text that is the pattern followed by a pattern-free remainder strips
exactly the leading pattern. -/
theorem pyReplace_append_eq (pre X : String) (hne : pre.data ≠ [])
    (hX : ¬ pre.data <:+: X.data) : pyReplace (pre ++ X) pre "" = X := by
  unfold pyReplace
  rw [show ("" : String).data = [] from rfl, String.data_append,
    pyReplaceL_append_pattern_absent pre.data [] X.data hne hX, List.nil_append]

/-- A concatenation starts with its first part. -/
theorem pyStartsWith_append (pre X : String) : pyStartsWith (pre ++ X) pre = true := by
  unfold pyStartsWith
  rw [String.data_append]
  exact List.isPrefixOf_iff_prefix.mpr (List.prefix_append _ _)

/-! ## Lemmas about the classifier -/

/-- Membership in the user category after one classification step. -/
theorem mem_user_classifyVar (acc : VariableCatalog) (t X : String) :
    X ∈ (classifyVar acc t).user ↔
      X ∈ acc.user ∨ (pyStartsWith t "user." = true ∧ X = pyReplace t "user." "") := by
  unfold classifyVar
  by_cases h1 : pyStartsWith t "user." = true
  · rw [if_pos h1]
    by_cases h2 : pyReplace t "user." "" ∈ acc.user
    · rw [if_neg (not_not_intro h2)]
      constructor
      · exact Or.inl
      · rintro (h | ⟨-, rfl⟩)
        · exact h
        · exact h2
    · rw [if_pos h2]
      show X ∈ acc.user ++ [pyReplace t "user." ""] ↔ _
      rw [List.mem_append, List.mem_singleton]
      constructor
      · rintro (h | h)
        · exact Or.inl h
        · exact Or.inr ⟨h1, h⟩
      · rintro (h | ⟨-, h⟩)
        · exact Or.inl h
        · exact Or.inr h
  · rw [if_neg h1]
    have hnot : ¬ (pyStartsWith t "user." = true ∧ X = pyReplace t "user." "") :=
      fun h => h1 h.1
    by_cases h2 : pyStartsWith t "env." = true
    · rw [if_pos h2]
      by_cases h3 : pyReplace t "env." "" ∈ acc.env
      · rw [if_neg (not_not_intro h3)]
        exact ⟨Or.inl, fun h => h.resolve_right hnot⟩
      · rw [if_pos h3]
        exact ⟨Or.inl, fun h => h.resolve_right hnot⟩
    · rw [if_neg h2]
      by_cases h3 : t ∈ acc.extract
      · rw [if_neg (not_not_intro h3)]
        exact ⟨Or.inl, fun h => h.resolve_right hnot⟩
      · rw [if_pos h3]
        exact ⟨Or.inl, fun h => h.resolve_right hnot⟩

/-- Membership in the env category after one classification step. -/
theorem mem_env_classifyVar (acc : VariableCatalog) (t X : String) :
    X ∈ (classifyVar acc t).env ↔
      X ∈ acc.env ∨ (pyStartsWith t "user." = false ∧ pyStartsWith t "env." = true ∧
        X = pyReplace t "env." "") := by
  unfold classifyVar
  by_cases h1 : pyStartsWith t "user." = true
  · rw [if_pos h1]
    have hnot : ¬ (pyStartsWith t "user." = false ∧ pyStartsWith t "env." = true ∧
        X = pyReplace t "env." "") := fun h => absurd h.1 (by simp [h1])
    by_cases h2 : pyReplace t "user." "" ∈ acc.user
    · rw [if_neg (not_not_intro h2)]
      exact ⟨Or.inl, fun h => h.resolve_right hnot⟩
    · rw [if_pos h2]
      exact ⟨Or.inl, fun h => h.resolve_right hnot⟩
  · rw [if_neg h1]
    have h1f : pyStartsWith t "user." = false := Bool.eq_false_iff.mpr h1
    by_cases h2 : pyStartsWith t "env." = true
    · rw [if_pos h2]
      by_cases h3 : pyReplace t "env." "" ∈ acc.env
      · rw [if_neg (not_not_intro h3)]
        constructor
        · exact Or.inl
        · rintro (h | ⟨-, -, rfl⟩)
          · exact h
          · exact h3
      · rw [if_pos h3]
        show X ∈ acc.env ++ [pyReplace t "env." ""] ↔ _
        rw [List.mem_append, List.mem_singleton]
        constructor
        · rintro (h | h)
          · exact Or.inl h
          · exact Or.inr ⟨h1f, h2, h⟩
        · rintro (h | ⟨-, -, h⟩)
          · exact Or.inl h
          · exact Or.inr h
    · rw [if_neg h2]
      have hnot : ¬ (pyStartsWith t "user." = false ∧ pyStartsWith t "env." = true ∧
          X = pyReplace t "env." "") := fun h => h2 h.2.1
      by_cases h3 : t ∈ acc.extract
      · rw [if_neg (not_not_intro h3)]
        exact ⟨Or.inl, fun h => h.resolve_right hnot⟩
      · rw [if_pos h3]
        exact ⟨Or.inl, fun h => h.resolve_right hnot⟩

/-- Membership in the extract category after one classification step. -/
theorem mem_extract_classifyVar (acc : VariableCatalog) (t X : String) :
    X ∈ (classifyVar acc t).extract ↔
      X ∈ acc.extract ∨ (pyStartsWith t "user." = false ∧ pyStartsWith t "env." = false ∧
        X = t) := by
  unfold classifyVar
  by_cases h1 : pyStartsWith t "user." = true
  · rw [if_pos h1]
    have hnot : ¬ (pyStartsWith t "user." = false ∧ pyStartsWith t "env." = false ∧ X = t) :=
      fun h => absurd h.1 (by simp [h1])
    by_cases h2 : pyReplace t "user." "" ∈ acc.user
    · rw [if_neg (not_not_intro h2)]
      exact ⟨Or.inl, fun h => h.resolve_right hnot⟩
    · rw [if_pos h2]
      exact ⟨Or.inl, fun h => h.resolve_right hnot⟩
  · rw [if_neg h1]
    have h1f : pyStartsWith t "user." = false := Bool.eq_false_iff.mpr h1
    by_cases h2 : pyStartsWith t "env." = true
    · rw [if_pos h2]
      have hnot : ¬ (pyStartsWith t "user." = false ∧ pyStartsWith t "env." = false ∧ X = t) :=
        fun h => absurd h.2.1 (by simp [h2])
      by_cases h3 : pyReplace t "env." "" ∈ acc.env
      · rw [if_neg (not_not_intro h3)]
        exact ⟨Or.inl, fun h => h.resolve_right hnot⟩
      · rw [if_pos h3]
        exact ⟨Or.inl, fun h => h.resolve_right hnot⟩
    · rw [if_neg h2]
      have h2f : pyStartsWith t "env." = false := Bool.eq_false_iff.mpr h2
      by_cases h3 : t ∈ acc.extract
      · rw [if_neg (not_not_intro h3)]
        constructor
        · exact Or.inl
        · rintro (h | ⟨-, -, rfl⟩)
          · exact h
          · exact h3
      · rw [if_pos h3]
        show X ∈ acc.extract ++ [t] ↔ _
        rw [List.mem_append, List.mem_singleton]
        constructor
        · rintro (h | h)
          · exact Or.inl h
          · exact Or.inr ⟨h1f, h2f, h⟩
        · rintro (h | ⟨-, -, h⟩)
          · exact Or.inl h
          · exact Or.inr h

/-- Membership in the user category of the classification of a token list. -/
theorem mem_user_foldl (ts : List String) :
    ∀ (acc : VariableCatalog) (X : String),
      X ∈ (ts.foldl classifyVar acc).user ↔
        X ∈ acc.user ∨
          ∃ t, t ∈ ts ∧ pyStartsWith t "user." = true ∧ X = pyReplace t "user." "" := by
  induction ts with
  | nil => intro acc X; simp
  | cons t ts ih =>
    intro acc X
    rw [List.foldl_cons, ih, mem_user_classifyVar]
    constructor
    · rintro ((h | ⟨hp, he⟩) | ⟨u, hu, hp, he⟩)
      · exact Or.inl h
      · exact Or.inr ⟨t, List.mem_cons_self t ts, hp, he⟩
      · exact Or.inr ⟨u, List.mem_cons_of_mem t hu, hp, he⟩
    · rintro (h | ⟨u, hu, hp, he⟩)
      · exact Or.inl (Or.inl h)
      · rcases List.mem_cons.mp hu with rfl | hu2
        · exact Or.inl (Or.inr ⟨hp, he⟩)
        · exact Or.inr ⟨u, hu2, hp, he⟩

/-- Membership in the env category of the classification of a token list. -/
theorem mem_env_foldl (ts : List String) :
    ∀ (acc : VariableCatalog) (X : String),
      X ∈ (ts.foldl classifyVar acc).env ↔
        X ∈ acc.env ∨
          ∃ t, t ∈ ts ∧ pyStartsWith t "user." = false ∧ pyStartsWith t "env." = true ∧
            X = pyReplace t "env." "" := by
  induction ts with
  | nil => intro acc X; simp
  | cons t ts ih =>
    intro acc X
    rw [List.foldl_cons, ih, mem_env_classifyVar]
    constructor
    · rintro ((h | ⟨hp, hq, he⟩) | ⟨u, hu, hp, hq, he⟩)
      · exact Or.inl h
      · exact Or.inr ⟨t, List.mem_cons_self t ts, hp, hq, he⟩
      · exact Or.inr ⟨u, List.mem_cons_of_mem t hu, hp, hq, he⟩
    · rintro (h | ⟨u, hu, hp, hq, he⟩)
      · exact Or.inl (Or.inl h)
      · rcases List.mem_cons.mp hu with rfl | hu2
        · exact Or.inl (Or.inr ⟨hp, hq, he⟩)
        · exact Or.inr ⟨u, hu2, hp, hq, he⟩

/-- Membership in the extract category of the classification of a token
list. -/
theorem mem_extract_foldl (ts : List String) :
    ∀ (acc : VariableCatalog) (X : String),
      X ∈ (ts.foldl classifyVar acc).extract ↔
        X ∈ acc.extract ∨
          (X ∈ ts ∧ pyStartsWith X "user." = false ∧ pyStartsWith X "env." = false) := by
  induction ts with
  | nil => intro acc X; simp
  | cons t ts ih =>
    intro acc X
    rw [List.foldl_cons, ih, mem_extract_classifyVar]
    constructor
    · rintro ((h | ⟨hp, hq, rfl⟩) | ⟨hu, hp, hq⟩)
      · exact Or.inl h
      · exact Or.inr ⟨List.mem_cons_self X ts, hp, hq⟩
      · exact Or.inr ⟨List.mem_cons_of_mem t hu, hp, hq⟩
    · rintro (h | ⟨hu, hp, hq⟩)
      · exact Or.inl (Or.inl h)
      · rcases List.mem_cons.mp hu with rfl | hu2
        · exact Or.inl (Or.inr ⟨hp, hq, rfl⟩)
        · exact Or.inr ⟨hu2, hp, hq⟩

/-- Appending an absent element preserves the absence of duplicates. -/
theorem nodup_append_singleton {X : String} {l : List String} (hl : l.Nodup)
    (hX : X ∉ l) : (l ++ [X]).Nodup := by
  refine List.Nodup.append hl (List.nodup_singleton X) ?_
  intro b hb hb2
  rw [List.mem_singleton] at hb2
  subst hb2
  exact hX hb

/-- One classification step preserves the absence of duplicates in all
three categories. -/
theorem nodup_classifyVar (acc : VariableCatalog) (t : String)
    (hu : acc.user.Nodup) (he : acc.env.Nodup) (hx : acc.extract.Nodup) :
    (classifyVar acc t).user.Nodup ∧ (classifyVar acc t).env.Nodup ∧
      (classifyVar acc t).extract.Nodup := by
  unfold classifyVar
  split_ifs with h1 h2 h3 h4 h5 <;>
    exact ⟨by first | exact hu | exact nodup_append_singleton hu h2,
      by first | exact he | exact nodup_append_singleton he h4,
      by first | exact hx | exact nodup_append_singleton hx h5⟩

/-- The classification of a token list has no duplicate in any category. -/
theorem nodup_foldl (ts : List String) :
    ∀ (acc : VariableCatalog), acc.user.Nodup → acc.env.Nodup → acc.extract.Nodup →
      (ts.foldl classifyVar acc).user.Nodup ∧ (ts.foldl classifyVar acc).env.Nodup ∧
        (ts.foldl classifyVar acc).extract.Nodup := by
  induction ts with
  | nil => exact fun acc hu he hx => ⟨hu, he, hx⟩
  | cons t ts ih =>
    intro acc hu he hx
    rw [List.foldl_cons]
    obtain ⟨hu2, he2, hx2⟩ := nodup_classifyVar acc t hu he hx
    exact ih _ hu2 he2 hx2

/-- C2 counterexample: the source classifies a token with str.replace, which
removes every occurrence of the pattern, so the token user.user.id lands in
the user category as id; the leading-prefix-only reading, which predicts
user.id, is false on the code. -/
theorem c2_counterexample_nested_token :
    (classify_variables ["user.user.id"]).user = ["id"] ∧
    "user.id" ∉ (classify_variables ["user.user.id"]).user := by
  exact ⟨by decide, by decide⟩

/-- C2 (amended): every scanner token lands in exactly one category — tokens
with prefix user. land in the user category with every occurrence of user.
removed (not only the leading prefix, so user.user.id yields id), tokens
with prefix env. land in the env category with every occurrence of env.
removed, and every other token lands in the extract category verbatim; each
category is free of duplicates. -/
theorem c2_classifier_replace_all_partition (ts : List String) :
    (∀ X, X ∈ (classify_variables ts).user ↔
      ∃ t, t ∈ ts ∧ pyStartsWith t "user." = true ∧ X = pyReplace t "user." "") ∧
    (∀ X, X ∈ (classify_variables ts).env ↔
      ∃ t, t ∈ ts ∧ pyStartsWith t "user." = false ∧ pyStartsWith t "env." = true ∧
        X = pyReplace t "env." "") ∧
    (∀ X, X ∈ (classify_variables ts).extract ↔
      X ∈ ts ∧ pyStartsWith X "user." = false ∧ pyStartsWith X "env." = false) ∧
    (classify_variables ts).user.Nodup ∧ (classify_variables ts).env.Nodup ∧
      (classify_variables ts).extract.Nodup := by
  unfold classify_variables
  refine ⟨fun X => ?_, fun X => ?_, fun X => ?_, ?_⟩
  · rw [mem_user_foldl]
    simp
  · rw [mem_env_foldl]
    simp
  · rw [mem_extract_foldl]
    simp
  · exact nodup_foldl ts ⟨[], [], []⟩ (by simp) (by simp) (by simp)

/-- C2 witness: the partition theorem applied to a concrete token list. -/
theorem c2_partition_witness :
    "id" ∈ (classify_variables ["user.user.id", "env.host", "step1.response"]).user ∧
    "host" ∈ (classify_variables ["user.user.id", "env.host", "step1.response"]).env ∧
    "step1.response" ∈
      (classify_variables ["user.user.id", "env.host", "step1.response"]).extract := by
  obtain ⟨hu, he, hx, -, -, -⟩ :=
    c2_classifier_replace_all_partition ["user.user.id", "env.host", "step1.response"]
  exact ⟨(hu "id").mpr ⟨"user.user.id", by decide, by decide, by decide⟩,
    (he "host").mpr ⟨"env.host", by decide, by decide, by decide, by decide⟩,
    (hx "step1.response").mpr ⟨by decide, by decide, by decide⟩⟩

/-! ## Lemmas about the scanner -/

/-- Every body the scanner captures is nonempty and free of closing braces,
for any fuel. -/
theorem findAllFuel_mem (fuel : Nat) :
    ∀ (s v : List Char), v ∈ findAllFuel fuel s → v ≠ [] ∧ '\x7d' ∉ v := by
  induction fuel with
  | zero =>
    intro s v hv
    cases s <;> simp [findAllFuel] at hv
  | succ n ih =>
    intro s v hv
    cases s with
    | nil => simp [findAllFuel] at hv
    | cons c rest =>
      by_cases hc : c = '\x7b'
      · subst hc
        cases rest with
        | nil =>
          rw [show findAllFuel (n + 1) ['\x7b'] = findAllFuel n [] by simp [findAllFuel]] at hv
          exact ih [] v hv
        | cons c2 rest2 =>
          by_cases hc2 : c2 = '\x7b'
          · subst hc2
            simp only [findAllFuel] at hv
            split at hv
            next hcond =>
              rcases List.mem_cons.mp hv with rfl | hv2
              · simp only [Bool.and_eq_true] at hcond
                obtain ⟨h1, -⟩ := hcond
                constructor
                · intro hnil
                  rw [hnil] at h1
                  simp at h1
                · intro hm
                  have := List.mem_takeWhile_imp hm
                  simp at this
              · exact ih _ v hv2
            next hcond => exact ih _ v hv
          · rw [show findAllFuel (n + 1) ('\x7b' :: c2 :: rest2) = findAllFuel n (c2 :: rest2)
              by simp [findAllFuel, hc2]] at hv
            exact ih _ v hv
      · rw [show findAllFuel (n + 1) (c :: rest) = findAllFuel n rest
          by simp [findAllFuel, hc]] at hv
        exact ih _ v hv

/-- C3 counterexample: on the text made of two opening braces, the body a,
one closing brace, the letter b and two closing braces, the scanner captures
nothing at all — the captured class excludes the closing brace, so the
predicted body running up to the first double closing brace never matches. -/
theorem c3_counterexample_brace_in_body :
    extract_variables_from_text "\x7b\x7ba\x7db\x7d\x7d" = [] ∧
    "a\x7db" ∉ extract_variables_from_text "\x7b\x7ba\x7db\x7d\x7d" := by
  exact ⟨by decide, by decide⟩

/-- C3 (amended): the scanner returns the ordered sequence of placeholder
bodies, duplicates retained, where every body is a nonempty run of
characters not containing any closing brace followed immediately by the
double closing brace; a candidate whose body would contain a closing brace
is simply not captured. The scanner is a plain function of the text. -/
theorem c3_scanner_tokens_brace_free :
    (∀ (s v : String), v ∈ extract_variables_from_text s → v ≠ "" ∧ '\x7d' ∉ v.data) ∧
    extract_variables_from_text "x\x7b\x7ba\x7d\x7dy\x7b\x7ba\x7d\x7d\x7b\x7bb\x7d\x7d" =
      ["a", "a", "b"] := by
  constructor
  · intro s v hv
    unfold extract_variables_from_text at hv
    rcases List.mem_map.mp hv with ⟨l, hl, rfl⟩
    obtain ⟨hne, hmem⟩ := findAllFuel_mem _ _ _ hl
    constructor
    · intro h
      exact hne (congrArg String.data h)
    · exact hmem
  · decide

/-- C3 witness: the brace-freedom statement applied to a concrete scan. -/
theorem c3_scanner_witness : "a" ≠ "" ∧ '\x7d' ∉ "a".data :=
  c3_scanner_tokens_brace_free.1 "\x7b\x7ba\x7d\x7d" "a" (by decide)

/-! ## Claim C5 -/

/-- A scenario whose serialized text contains the placeholder user.user.id,
which is the string user.X for the name X equal to user.id. -/
def c5_scenario : Json := .obj [("url", .str "\x7b\x7buser.user.id\x7d\x7d")]

/-- The scenario of the round-trip example: user.a twice and env.b once. -/
def c5_roundtrip_scenario : Json :=
  .obj [("url", .str "\x7b\x7buser.a\x7d\x7d \x7b\x7buser.a\x7d\x7d \x7b\x7benv.b\x7d\x7d")]

/-- C5 counterexample: the placeholder user.X with X equal to user.id occurs
in the serialized scenario text, yet X does not appear in the user category
at all (the category holds id instead), because classification removes every
occurrence of the pattern user. from the token. -/
theorem c5_counterexample_nested_name :
    ("\x7b\x7buser." ++ "user.id" ++ "\x7d\x7d").data <:+: (dumps c5_scenario).data ∧
    List.count "user.id" (extract_variables_from_scenario c5_scenario).user = 0 ∧
    (extract_variables_from_scenario c5_scenario).user = ["id"] := by
  exact ⟨by decide, by decide, by decide⟩

/-- C5 (amended): for every scenario and every name X that does not itself
contain the pattern user., if the scanner emits the token user.X for the
serialized scenario then X appears in the user category exactly once,
however many times the placeholder repeats; and the round-trip example
classifies to user a, env b and an empty extract category. -/
theorem c5_user_exactly_once :
    (∀ (scenario : Json) (X : String), ¬ "user.".data <:+: X.data →
      ("user." ++ X) ∈ extract_variables_from_text (dumps scenario) →
      List.count X (extract_variables_from_scenario scenario).user = 1) ∧
    (extract_variables_from_scenario c5_roundtrip_scenario).user = ["a"] ∧
    (extract_variables_from_scenario c5_roundtrip_scenario).env = ["b"] ∧
    (extract_variables_from_scenario c5_roundtrip_scenario).extract = [] := by
  refine ⟨fun scenario X hfree hmem => ?_, by decide, by decide, by decide⟩
  have hstart : pyStartsWith ("user." ++ X) "user." = true := pyStartsWith_append _ _
  have hrep : pyReplace ("user." ++ X) "user." "" = X :=
    pyReplace_append_eq "user." X (by decide) hfree
  unfold extract_variables_from_scenario classify_variables
  have hm : X ∈ ((extract_variables_from_text (dumps scenario)).foldl
      classifyVar ⟨[], [], []⟩).user := by
    rw [mem_user_foldl]
    exact Or.inr ⟨"user." ++ X, hmem, hstart, hrep.symm⟩
  have hnd := (nodup_foldl (extract_variables_from_text (dumps scenario)) ⟨[], [], []⟩
    (by simp) (by simp) (by simp)).1
  exact List.count_eq_one_of_mem hnd hm

/-- C5 witness: the exactly-once statement applied to the round-trip
scenario and the name a. -/
theorem c5_exactly_once_witness :
    List.count "a" (extract_variables_from_scenario c5_roundtrip_scenario).user = 1 :=
  c5_user_exactly_once.1 c5_roundtrip_scenario "a" (by decide) (by decide)

/-! ## Lemmas about the report builder -/

/-- The error list of a report for two decoded documents: dataset errors,
scenario errors, variables errors, then the cross-file errors gated on the
two structural checks being clean. -/
theorem validate_files_errors (sp vp : Json) (users : Option String) :
    (validate_files (.ok sp) (.ok vp) users).errors =
      csvErrorsOf users ++ validate_scenario_structure sp ++
        validate_variables_structure vp ++
        (if validate_scenario_structure sp = [] ∧ validate_variables_structure vp = [] then
          validate_cross_file_consistency (extract_variables_from_scenario sp) vp
            (csvColumnsOf users)
        else []) := by
  simp only [validate_files]
  split <;> split
  all_goals
    first
      | rfl
      | (rename_i h2; exact (List.isEmpty_iff.mp h2).symm)

/-- The status of a report for two decoded documents is decided by the
emptiness of the combined error list. -/
theorem validate_files_status (sp vp : Json) (users : Option String) :
    (validate_files (.ok sp) (.ok vp) users).status =
      (if (csvErrorsOf users ++ validate_scenario_structure sp ++
          validate_variables_structure vp ++
          (if validate_scenario_structure sp = [] ∧ validate_variables_structure vp = [] then
            validate_cross_file_consistency (extract_variables_from_scenario sp) vp
              (csvColumnsOf users)
          else [])).isEmpty then "success" else "error") := by
  simp only [validate_files]
  split <;> split <;> rename_i h2 <;> simp [h2]

/-- The analysis of a report for two decoded documents: the extracted
catalog, the dataset columns, and whether the artifacts were persisted
(exactly when the combined error list is empty). -/
theorem validate_files_analysis (sp vp : Json) (users : Option String) :
    (validate_files (.ok sp) (.ok vp) users).analysis =
      some ⟨extract_variables_from_scenario sp, csvColumnsOf users,
        (csvErrorsOf users ++ validate_scenario_structure sp ++
          validate_variables_structure vp ++
          (if validate_scenario_structure sp = [] ∧ validate_variables_structure vp = [] then
            validate_cross_file_consistency (extract_variables_from_scenario sp) vp
              (csvColumnsOf users)
          else [])).isEmpty⟩ := by
  simp only [validate_files]
  split <;> split <;> rfl

/-! ## Claim C4 -/

/-- C4: for every submission whose scenario document is an object with an
empty steps sequence, the report carries the at-least-one-step error, has
status error, and the combined error list is exactly the dataset, scenario
and variables errors — the cross-file consistency check contributes nothing
because the structural gate shuts. -/
theorem c4_empty_steps_no_cross_reference (vp : Json) (users : Option String)
    (fields : List (String × Json))
    (hsteps : lookupFields fields "steps" = some (.arr [])) :
    "Le scénario doit avoir au moins une étape" ∈
        (validate_files (.ok (.obj fields)) (.ok vp) users).errors ∧
    (validate_files (.ok (.obj fields)) (.ok vp) users).status = "error" ∧
    (validate_files (.ok (.obj fields)) (.ok vp) users).errors =
      csvErrorsOf users ++ validate_scenario_structure (.obj fields) ++
        validate_variables_structure vp := by
  have hscen_mem : "Le scénario doit avoir au moins une étape" ∈
      validate_scenario_structure (.obj fields) := by
    simp [validate_scenario_structure, hsteps, validateStepsFrom]
  have hscen_ne : validate_scenario_structure (.obj fields) ≠ [] := by
    intro h
    rw [h] at hscen_mem
    exact absurd hscen_mem (List.not_mem_nil _)
  have hgate : ¬ (validate_scenario_structure (.obj fields) = [] ∧
      validate_variables_structure vp = []) := fun h => hscen_ne h.1
  have herr := validate_files_errors (.obj fields) vp users
  rw [if_neg hgate, List.append_nil] at herr
  refine ⟨?_, ?_, herr⟩
  · rw [herr]
    exact List.mem_append_left _ (List.mem_append_right _ hscen_mem)
  · rw [validate_files_status, if_neg hgate, List.append_nil, if_neg]
    intro hE
    have : validate_scenario_structure (.obj fields) = [] := by
      have := List.isEmpty_iff.mp hE
      rw [List.append_eq_nil, List.append_eq_nil] at this
      exact this.1.2
    exact hscen_ne this

/-- C4 witness: a concrete scenario with name s and an empty steps list. -/
theorem c4_empty_steps_witness :
    "Le scénario doit avoir au moins une étape" ∈
      (validate_files (.ok (.obj [("name", .str "s"), ("steps", .arr [])]))
        (.ok (.obj [("mode", .str "users"), ("virtualUsers", .num 5)])) none).errors :=
  (c4_empty_steps_no_cross_reference (.obj [("mode", .str "users"), ("virtualUsers", .num 5)])
    none [("name", .str "s"), ("steps", .arr [])] rfl).1

/-! ## Claim C6 -/

/-- C6: for every submission whose structural checks are both clean, whose
variables document has mode users, and whose dataset column list is empty,
the report carries the mode versus dataset mismatch error — whatever the
scenario placeholders and the outcomes of the user-column and
environment-key checks. -/
theorem c6_mode_users_empty_dataset_error (sp vp : Json) (users : Option String)
    (hscen : validate_scenario_structure sp = [])
    (hvar : validate_variables_structure vp = [])
    (hmode : jsonGetEqStr vp "mode" "users" = true)
    (hcols : csvColumnsOf users = []) :
    "Mode \x27users\x27 spécifié mais fichier users.csv manquant ou vide" ∈
      (validate_files (.ok sp) (.ok vp) users).errors := by
  rw [validate_files_errors, if_pos ⟨hscen, hvar⟩, hcols]
  have hcross : "Mode \x27users\x27 spécifié mais fichier users.csv manquant ou vide" ∈
      validate_cross_file_consistency (extract_variables_from_scenario sp) vp [] := by
    unfold validate_cross_file_consistency
    simp [hmode, List.mem_append]
  exact List.mem_append_right _ hcross

/-- C6 witness: a valid scenario that does use a user placeholder, mode
users, and no dataset part. -/
theorem c6_mode_users_witness :
    "Mode \x27users\x27 spécifié mais fichier users.csv manquant ou vide" ∈
      (validate_files
        (.ok (.obj [("name", .str "s"),
          ("steps", .arr [.obj [("name", .str "a"), ("method", .str "GET"),
            ("url", .str "/x?q=\x7b\x7buser.id\x7d\x7d")]])]))
        (.ok (.obj [("mode", .str "users"), ("virtualUsers", .num 5)])) none).errors :=
  c6_mode_users_empty_dataset_error
    (.obj [("name", .str "s"),
      ("steps", .arr [.obj [("name", .str "a"), ("method", .str "GET"),
        ("url", .str "/x?q=\x7b\x7buser.id\x7d\x7d")]])])
    (.obj [("mode", .str "users"), ("virtualUsers", .num 5)]) none
    (by decide) (by decide) (by decide) rfl

/-! ## Claim C7 -/

/-- C7 counterexample: with mode requests and totalRequests absent, the
structural check fails — but with the requires-the-field message, not the
must-be-a-positive-integer one that the claim predicts for the missing
case. -/
theorem c7_counterexample_missing_field_message :
    "\x27totalRequests\x27 doit être un entier positif" ∉
      validate_variables_structure (.obj [("mode", .str "requests")]) ∧
    validate_variables_structure (.obj [("mode", .str "requests")]) =
      ["Le mode \x27requests\x27 nécessite le champ \x27totalRequests\x27"] := by
  exact ⟨by decide, by decide⟩

/-- C7 (amended): with mode requests, a totalRequests that is present but
not an integer (in the Python sense, booleans included) or not strictly
positive — in particular zero — draws the must-be-a-positive-integer error,
while a missing totalRequests draws the requires-the-field error;
symmetrically for mode users and virtualUsers. Under any variables
structural error the report has status error and the artifacts are never
persisted, so the execution request builder has nothing to run on. -/
theorem c7_positive_integer_checks :
    (∀ (fields : List (String × Json)) (v : Json),
      jsonGetEqStr (.obj fields) "mode" "requests" = true →
      lookupFields fields "totalRequests" = some v →
      (isIntLike v = false ∨ jsonIntVal v ≤ 0) →
      "\x27totalRequests\x27 doit être un entier positif" ∈
        validate_variables_structure (.obj fields)) ∧
    (∀ (fields : List (String × Json)),
      jsonGetEqStr (.obj fields) "mode" "requests" = true →
      lookupFields fields "totalRequests" = none →
      "Le mode \x27requests\x27 nécessite le champ \x27totalRequests\x27" ∈
        validate_variables_structure (.obj fields)) ∧
    (∀ (fields : List (String × Json)) (v : Json),
      jsonGetEqStr (.obj fields) "mode" "users" = true →
      lookupFields fields "virtualUsers" = some v →
      (isIntLike v = false ∨ jsonIntVal v ≤ 0) →
      "\x27virtualUsers\x27 doit être un entier positif" ∈
        validate_variables_structure (.obj fields)) ∧
    (∀ (fields : List (String × Json)),
      jsonGetEqStr (.obj fields) "mode" "users" = true →
      lookupFields fields "virtualUsers" = none →
      "Le mode \x27users\x27 nécessite le champ \x27virtualUsers\x27" ∈
        validate_variables_structure (.obj fields)) ∧
    (∀ (sp vp : Json) (users : Option String),
      validate_variables_structure vp ≠ [] →
      (validate_files (.ok sp) (.ok vp) users).status = "error" ∧
      (validate_files (.ok sp) (.ok vp) users).analysis.map
        (fun a => a.files_saved) = some false) := by
  refine ⟨?_, ?_, ?_, ?_, ?_⟩
  · intro fields v hmode hv hbad
    have hcond : (!isIntLike v || decide (jsonIntVal v ≤ 0)) = true := by
      rcases hbad with h | h <;> simp [h]
    simp only [validate_variables_structure]
    refine List.mem_append_right _ ?_
    rw [if_pos hmode, hv]
    simp [hcond]
  · intro fields hmode hv
    simp only [validate_variables_structure]
    refine List.mem_append_right _ ?_
    rw [if_pos hmode, hv]
    simp
  · intro fields v hmode hv hbad
    have hcond : (!isIntLike v || decide (jsonIntVal v ≤ 0)) = true := by
      rcases hbad with h | h <;> simp [h]
    simp only [validate_variables_structure]
    refine List.mem_append_left _ (List.mem_append_right _ ?_)
    rw [if_pos hmode, hv]
    simp [hcond]
  · intro fields hmode hv
    simp only [validate_variables_structure]
    refine List.mem_append_left _ (List.mem_append_right _ ?_)
    rw [if_pos hmode, hv]
    simp
  · intro sp vp users hvar
    have hE : (csvErrorsOf users ++ validate_scenario_structure sp ++
        validate_variables_structure vp ++
        (if validate_scenario_structure sp = [] ∧ validate_variables_structure vp = [] then
          validate_cross_file_consistency (extract_variables_from_scenario sp) vp
            (csvColumnsOf users)
        else [])).isEmpty = false := by
      rw [List.isEmpty_eq_false]
      intro h
      rw [List.append_eq_nil, List.append_eq_nil, List.append_eq_nil] at h
      exact hvar h.1.2
    constructor
    · rw [validate_files_status, hE]
      rfl
    · rw [validate_files_analysis, hE]
      rfl

/-- C7 witness: totalRequests zero draws the positive-integer error, and a
submission carrying that variables document ends in an error report with
nothing persisted. -/
theorem c7_positive_integer_witness :
    "\x27totalRequests\x27 doit être un entier positif" ∈
      validate_variables_structure
        (.obj [("mode", .str "requests"), ("totalRequests", .num 0)]) ∧
    (validate_files (.ok (.obj [("name", .str "s"), ("steps", .arr [])]))
      (.ok (.obj [("mode", .str "requests"), ("totalRequests", .num 0)])) none).status =
        "error" := by
  constructor
  · exact c7_positive_integer_checks.1 [("mode", .str "requests"), ("totalRequests", .num 0)]
      (.num 0) (by decide) rfl (Or.inr (by decide))
  · exact (c7_positive_integer_checks.2.2.2.2 (.obj [("name", .str "s"), ("steps", .arr [])])
      (.obj [("mode", .str "requests"), ("totalRequests", .num 0)]) none (by decide)).1

/-! ## Claim C8 -/

/-- An execution environment where both stored documents exist but reading
the scenario raises (for instance the stored file is not valid JSON). -/
def c8_env : ExecEnv :=
  { scenario_exists := true, variables_exists := true, scenario_load := none,
    variables_load := some (.obj []), users_exists := false, users_content := "",
    timestamp := 0, worker := .connectionExc }

/-- The same environment with both documents loading and the worker call
timing out. -/
def c8_env_timeout : ExecEnv :=
  { c8_env with scenario_load := some (.obj []), worker := .timeoutExc }

/-- C8: when the stored scenario document fails to load, the exception is
raised before the local test_id is assigned, and every except handler reads
test_id — so the handler itself raises UnboundLocalError and no outcome is
returned at all, against the intent that every branch carry a test id. A
branch reached after the assignment, such as the timeout handler, does
carry the generated id. -/
theorem c8_unbound_test_id_on_load_failure :
    execute_test c8_env = .error (.unboundLocal "test_id") ∧
    (execute_test c8_env_timeout).map (fun r => r.test_id) = .ok "test_0" := by
  exact ⟨rfl, rfl⟩

/-! ## Claim C9 -/

/-- C9: a submission whose scenario part or variables part fails to decode
yields the minimal report: status error, exactly the one parse error, no
analysis — no structural, cross-file or dataset validator contributes. -/
theorem c9_parse_failure_minimal_report :
    (∀ (e : String) (vp : Except String Json) (users : Option String),
      validate_files (.error e) vp users = parseErrorReport e) ∧
    (∀ (e : String) (sp : Json) (users : Option String),
      validate_files (.ok sp) (.error e) users = parseErrorReport e) ∧
    (∀ (e : String), (parseErrorReport e).errors = ["Erreur JSON: " ++ e] ∧
      (parseErrorReport e).status = "error" ∧ (parseErrorReport e).analysis = none ∧
      (parseErrorReport e).errors.length = 1) := by
  exact ⟨fun e vp users => rfl, fun e sp users => rfl, fun e => ⟨rfl, rfl, rfl, rfl⟩⟩

/-! ## Claim C10 -/

/-- C10: the positive-integer checks accept the boolean true, because the
decoded boolean passes the Python isinstance int test (bool is a subclass
of int) and compares strictly positive; a variables document with mode
users and virtualUsers true, or mode requests and totalRequests true,
passes the structural check with no error at all. -/
theorem c10_bool_true_passes_integer_checks :
    validate_variables_structure
      (.obj [("mode", .str "users"), ("virtualUsers", .bool true)]) = [] ∧
    validate_variables_structure
      (.obj [("mode", .str "requests"), ("totalRequests", .bool true)]) = [] ∧
    isIntLike (.bool true) = true ∧ (0 : Int) < jsonIntVal (.bool true) := by
  exact ⟨by decide, by decide, rfl, by decide⟩
